import Mathlib

/-!
Verification of the Kifaa Scoring Monitor (backend/scoring_monitor.py).

Modelling conventions:
* Python float arithmetic is modelled by exact rational arithmetic over ℚ;
  the real-valued statistics produced by the baseline calculator (which
  involve square roots) are modelled over ℝ.
* Python `deque(maxlen = n)` is modelled by a list holding the oldest entry
  first, with `dequeAppend` evicting from the front when capacity is reached.
* The optional numeric `credit_score` field of an event response payload is
  modelled as an `Option ℚ`; `none` covers an absent key, an empty payload and
  a payload that fails to parse.
* Database effects are modelled by explicit state passing on a `Database`
  record; a persistence write that fails at runtime is modelled by the
  boolean `persistOk` argument being `false` (the source catches the failure
  and leaves the database unchanged).
* A Python `ZeroDivisionError` escaping a function is modelled with
  `Except PyError` (or an `Option PyError` component when the mutated state
  must survive the exception, as it does in the source).
-/

/-- Python `ZeroDivisionError`, the only exception reachable in the
ingestion path of the source. -/
inductive PyError where
  | zeroDivision
  deriving DecidableEq

/-- A value stored in the `metrics` map of an alert: the source stores both
numbers and strings there. -/
inductive MetricValue where
  | num (q : ℚ)
  | str (s : String)
  deriving DecidableEq

/-- `ScoringEvent` dataclass of the source. `credit_score` stands for the
optional numeric `credit_score` entry of `response_data`; the remaining
payload content is never inspected by the monitor and is elided. -/
structure ScoringEvent where
  timestamp : ℚ
  user_id : String
  api_key : String
  credit_score : Option ℚ
  processing_time : ℚ
  ip_address : String
  user_agent : String
  status_code : ℤ
  error_message : Option String
  deriving DecidableEq

/-- `AnomalyAlert` dataclass of the source. -/
structure AnomalyAlert where
  timestamp : ℚ
  alert_type : String
  severity : String
  description : String
  affected_entities : List String
  metrics : List (String × MetricValue)
  recommendations : List String
  deriving DecidableEq

/-- The in-memory `baseline_metrics` dict as the detectors consume it
(numeric values, modelled as rationals). -/
structure BaselineMetrics where
  avg_processing_time : ℚ
  std_processing_time : ℚ
  avg_score : ℚ
  std_score : ℚ
  requests_per_hour : ℚ
  last_updated : ℚ
  deriving DecidableEq

/-- The two persisted tables (`scoring_events`, `anomaly_alerts`),
in insertion order. -/
structure Database where
  events : List ScoringEvent
  alerts : List AnomalyAlert
  deriving DecidableEq

/-- The mutable state of a `ScoringMonitor` instance.  The sliding windows
hold the oldest entry first.  The request counters are association lists
(a missing key counts as zero, as with `defaultdict(int)`). -/
structure MonitorState where
  window_size : Nat
  alert_threshold : Nat
  recent_events : List ScoringEvent
  recent_scores : List ℚ
  recent_response_times : List ℚ
  baseline_metrics : BaselineMetrics
  alerts : List AnomalyAlert
  user_request_counts : List (String × Nat)
  ip_request_counts : List (String × Nat)
  db : Database

/-- `deque(maxlen).append`: append on the right, evict from the left once
the capacity is exceeded. -/
def dequeAppend (maxlen : Nat) (xs : List α) (x : α) : List α :=
  let ys := xs ++ [x]
  if maxlen < ys.length then ys.drop (ys.length - maxlen) else ys

/-- `statistics.mean` over rationals (`sum / n`). -/
def qmean (xs : List ℚ) : ℚ := xs.sum / xs.length

/-- Increment of a `defaultdict(int)` counter. -/
def bumpCount (m : List (String × Nat)) (k : String) : List (String × Nat) :=
  match m with
  | [] => [(k, 1)]
  | (k₀, n) :: rest => if k₀ = k then (k, n + 1) :: rest else (k₀, n) :: bumpCount rest k

/-- Lookup of a `defaultdict(int)` counter (missing key reads as 0). -/
def getCount (m : List (String × Nat)) (k : String) : Nat :=
  match m with
  | [] => 0
  | (k₀, n) :: rest => if k₀ = k then n else getCount rest k

/-- `ScoringMonitor._detect_response_time_anomalies`.  When the spike
condition holds the source computes `avg_time / baseline_avg` for the
`spike_factor` metric, which raises `ZeroDivisionError` when the baseline
average is zero; numeric text formatting in the description is elided. -/
def detectResponseTimeAnomalies (times : List ℚ) (b : BaselineMetrics)
    (eventApiKey : String) (now : ℚ) : Except PyError (Option AnomalyAlert) :=
  if times.length < 10 then .ok none
  else
    let avg_time := qmean times
    let baseline_avg := b.avg_processing_time
    let baseline_std := b.std_processing_time
    if baseline_avg + 3 * baseline_std < avg_time then
      if baseline_avg = 0 then .error .zeroDivision
      else
        .ok (some
          { timestamp := now
            alert_type := "response_time_spike"
            severity := "high"
            description := "Response time spike detected"
            affected_entities := [eventApiKey]
            metrics :=
              [("current_avg_time", .num avg_time),
               ("baseline_avg_time", .num baseline_avg),
               ("spike_factor", .num (avg_time / baseline_avg))]
            recommendations :=
              ["Check system resources and database performance",
               "Review recent model changes",
               "Consider scaling infrastructure"] })
    else .ok none

/-- `ScoringMonitor._detect_score_anomalies`. -/
def detectScoreAnomalies (scores : List ℚ) (b : BaselineMetrics) (now : ℚ) :
    Option AnomalyAlert :=
  if scores.length < 20 then none
  else
    let recent_avg := qmean scores
    let baseline_avg := b.avg_score
    let baseline_std := b.std_score
    if 2 * baseline_std < |recent_avg - baseline_avg| then
      some
        { timestamp := now
          alert_type := "score_distribution_shift"
          severity := if 3 * baseline_std < |recent_avg - baseline_avg| then "high" else "medium"
          description := "Score distribution shift"
          affected_entities := ["scoring_model"]
          metrics :=
            [("current_avg_score", .num recent_avg),
             ("baseline_avg_score", .num baseline_avg),
             ("deviation", .num |recent_avg - baseline_avg|)]
          recommendations :=
            ["Review model performance and training data",
             "Check for data quality issues",
             "Consider model retraining"] }
    else none

/-- `ScoringMonitor._detect_request_pattern_anomalies`.  The
`spike_factor` metric divides by `requests_per_hour`, raising
`ZeroDivisionError` when that baseline is zero and the spike condition
holds. -/
def detectRequestPatternAnomalies (events : List ScoringEvent)
    (b : BaselineMetrics) (now : ℚ) : Except PyError (Option AnomalyAlert) :=
  let recent_hour_events := events.filter (fun e => now - 3600 < e.timestamp)
  let current_rate : ℚ := recent_hour_events.length
  let baseline_rate := b.requests_per_hour
  if baseline_rate * 5 < current_rate then
    if baseline_rate = 0 then .error .zeroDivision
    else
      .ok (some
        { timestamp := now
          alert_type := "traffic_spike"
          severity := "medium"
          description := "Traffic spike detected"
          affected_entities := ["api_gateway"]
          metrics :=
            [("current_rate", .num current_rate),
             ("baseline_rate", .num baseline_rate),
             ("spike_factor", .num (current_rate / baseline_rate))]
          recommendations :=
            ["Monitor system capacity",
             "Check for potential DDoS or bot activity",
             "Consider rate limiting adjustments"] })
  else .ok none

/-- `ScoringMonitor._detect_error_rate_anomalies`. -/
def detectErrorRateAnomalies (events : List ScoringEvent) (now : ℚ) :
    Option AnomalyAlert :=
  let recent_events := events.filter (fun e => now - 3600 < e.timestamp)
  if recent_events.length < 10 then none
  else
    let error_events := recent_events.filter (fun e => 400 ≤ e.status_code)
    let error_rate : ℚ := (error_events.length : ℚ) / (recent_events.length : ℚ)
    if 1 / 10 < error_rate then
      some
        { timestamp := now
          alert_type := "high_error_rate"
          severity := if 3 / 10 < error_rate then "critical" else "high"
          description := "High error rate detected"
          affected_entities := ["api_service"]
          metrics :=
            [("error_rate", .num error_rate),
             ("total_requests", .num recent_events.length),
             ("error_requests", .num error_events.length)]
          recommendations :=
            ["Check application logs for error details",
             "Review recent deployments",
             "Monitor system health"] }
    else none

/-- `ScoringMonitor._detect_repeat_request_anomalies`: the user-count and
address-count checks are independent and may both fire. -/
def detectRepeatRequestAnomalies (userCounts ipCounts : List (String × Nat))
    (e : ScoringEvent) (now : ℚ) : List AnomalyAlert :=
  let userAlerts :=
    if 50 < getCount userCounts e.user_id then
      [{ timestamp := now
         alert_type := "repeat_user_requests"
         severity := "medium"
         description := "Repeated user requests"
         affected_entities := [e.user_id]
         metrics :=
           [("user_id", .str e.user_id),
            ("request_count", .num (getCount userCounts e.user_id))]
         recommendations :=
           ["Review user behavior patterns",
            "Consider implementing user-specific rate limits",
            "Check for potential abuse"] }]
    else []
  let ipAlerts :=
    if 100 < getCount ipCounts e.ip_address then
      [{ timestamp := now
         alert_type := "repeat_ip_requests"
         severity := "high"
         description := "Repeated address requests"
         affected_entities := [e.ip_address]
         metrics :=
           [("ip_address", .str e.ip_address),
            ("request_count", .num (getCount ipCounts e.ip_address))]
         recommendations :=
           ["Implement IP-based rate limiting",
            "Check for bot or scraping activity",
            "Consider blocking suspicious IPs"] }]
    else []
  userAlerts ++ ipAlerts

/-- `ScoringMonitor._trigger_alert`: append to the in-memory list, persist
(failures caught, modelled by `persistOk`), then drop in-memory alerts
older than 24 hours. -/
def triggerAlert (s : MonitorState) (a : AnomalyAlert) (persistOk : Bool)
    (now : ℚ) : MonitorState :=
  let s₁ := { s with alerts := s.alerts ++ [a] }
  let s₂ :=
    if persistOk then { s₁ with db := { s₁.db with alerts := s₁.db.alerts ++ [a] } }
    else s₁
  { s₂ with alerts := s₂.alerts.filter (fun al => now - 24 * 3600 < al.timestamp) }

/-- Folds `triggerAlert` over an optional alert. -/
def triggerOpt (s : MonitorState) (a : Option AnomalyAlert) (persistOk : Bool)
    (now : ℚ) : MonitorState :=
  match a with
  | some al => triggerAlert s al persistOk now
  | none => s

/-- `ScoringMonitor._detect_anomalies`: runs the five detectors in source
order; an uncaught exception aborts the remaining detectors but the state
mutations already performed survive (the source mutates `self` in place). -/
def detectAnomalies (s : MonitorState) (e : ScoringEvent) (now : ℚ)
    (persistOk : Bool) : MonitorState × Option PyError :=
  if s.recent_events.length < s.alert_threshold then (s, none)
  else
    match detectResponseTimeAnomalies s.recent_response_times s.baseline_metrics e.api_key now with
    | .error err => (s, some err)
    | .ok r₁ =>
      let s₁ := triggerOpt s r₁ persistOk now
      let s₂ := triggerOpt s₁ (detectScoreAnomalies s₁.recent_scores s₁.baseline_metrics now) persistOk now
      match detectRequestPatternAnomalies s₂.recent_events s₂.baseline_metrics now with
      | .error err => (s₂, some err)
      | .ok r₃ =>
        let s₃ := triggerOpt s₂ r₃ persistOk now
        let s₄ := triggerOpt s₃ (detectErrorRateAnomalies s₃.recent_events now) persistOk now
        let s₅ := (detectRepeatRequestAnomalies s₄.user_request_counts s₄.ip_request_counts e now).foldl
          (fun st al => triggerAlert st al persistOk now) s₄
        (s₅, none)

/-- `ScoringMonitor.log_scoring_event`: append to the three sliding windows,
bump the actor counters, persist the event (failures caught), then run
anomaly detection.  The second component is the exception escaping to the
caller, if any. -/
def logScoringEvent (s : MonitorState) (e : ScoringEvent) (now : ℚ)
    (persistOk : Bool) : MonitorState × Option PyError :=
  let s₁ := { s with recent_events := dequeAppend s.window_size s.recent_events e }
  let s₂ :=
    match e.credit_score with
    | some c => { s₁ with recent_scores := dequeAppend s₁.window_size s₁.recent_scores c }
    | none => s₁
  let s₃ := { s₂ with recent_response_times := dequeAppend s₂.window_size s₂.recent_response_times e.processing_time }
  let s₄ := { s₃ with
    user_request_counts := bumpCount s₃.user_request_counts e.user_id
    ip_request_counts := bumpCount s₃.ip_request_counts e.ip_address }
  let s₅ :=
    if persistOk then { s₄ with db := { s₄.db with events := s₄.db.events ++ [e] } }
    else s₄
  detectAnomalies s₅ e now persistOk

/-- A fresh `ScoringMonitor` (empty windows, counters, alert list), with the
baseline and database abstracted as parameters. -/
def initialState (window_size alert_threshold : Nat) (b : BaselineMetrics)
    (db : Database) : MonitorState :=
  { window_size := window_size
    alert_threshold := alert_threshold
    recent_events := []
    recent_scores := []
    recent_response_times := []
    baseline_metrics := b
    alerts := []
    user_request_counts := []
    ip_request_counts := []
    db := db }

/-- A sequence of ingestion calls, each with its wall-clock time and the
success of its persistence writes; exceptions escaping one call do not stop
later calls (the state mutations survive, as in the source). -/
def runMonitor (s : MonitorState) (calls : List (ScoringEvent × ℚ × Bool)) :
    MonitorState :=
  calls.foldl (fun st c => (logScoringEvent st c.1 c.2.1 c.2.2).1) s

/-- One row fetched by `_load_baseline_metrics` from `scoring_events`
(`processing_time`, the optional parsed `credit_score` of `response_data`,
`timestamp`). -/
structure BaselineRow where
  processing_time : ℚ
  credit_score : Option ℚ
  timestamp : ℚ
  deriving DecidableEq

/-- The `baseline_metrics` dict as `_load_baseline_metrics` computes it;
the standard deviations involve a square root and live in ℝ. -/
structure LoadedBaseline where
  avg_processing_time : ℝ
  std_processing_time : ℝ
  avg_score : ℝ
  std_score : ℝ
  requests_per_hour : ℝ
  last_updated : ℝ

/-- `statistics.mean` of rational samples, valued in ℝ. -/
noncomputable def statMean (xs : List ℚ) : ℝ := ((xs.sum : ℚ) : ℝ) / xs.length

/-- `statistics.stdev`: the sample standard deviation, the square root of
the sum of squared deviations from the mean divided by `n - 1`. -/
noncomputable def statStdev (xs : List ℚ) : ℝ :=
  Real.sqrt ((xs.map (fun x => ((x : ℝ) - statMean xs) ^ 2)).sum / (xs.length - 1))

/-- `ScoringMonitor._load_baseline_metrics`, applied to the rows fetched
from the last 7 days (a database error at runtime also lands in the
default branch; we model the fetched rows directly). -/
noncomputable def loadBaselineMetrics (rows : List BaselineRow) (now : ℝ) :
    LoadedBaseline :=
  if rows.isEmpty then
    { avg_processing_time := 0.5
      std_processing_time := 0.2
      avg_score := 500
      std_score := 150
      requests_per_hour := 10
      last_updated := now }
  else
    let processing_times := rows.map (fun r => r.processing_time)
    let scores := rows.filterMap (fun r => r.credit_score)
    { avg_processing_time := statMean processing_times
      std_processing_time := if 1 < processing_times.length then statStdev processing_times else 0
      avg_score := if scores.isEmpty then 500 else statMean scores
      std_score := if 1 < scores.length then statStdev scores else 100
      requests_per_hour := (rows.length : ℝ) / (7 * 24)
      last_updated := now }

/-- `ScoringMonitor.cleanup_old_data`: deletes persisted events and alerts
with `timestamp < now - days_to_keep * 24 * 3600`.  The source computes and
logs the two deletion counts but has no return statement, so the caller
receives `None`: the second component models the value returned to the
caller and is always `none`. -/
def cleanupOldData (db : Database) (now days_to_keep : ℚ) :
    Database × Option (Nat × Nat) :=
  let cutoff := now - days_to_keep * 24 * 3600
  let keptEvents := db.events.filter (fun e => ¬ e.timestamp < cutoff)
  let keptAlerts := db.alerts.filter (fun a => ¬ a.timestamp < cutoff)
  ({ events := keptEvents, alerts := keptAlerts }, none)

/-- `sorted(data)` for rationals (ascending). -/
def pySorted (xs : List ℚ) : List ℚ := xs.insertionSort (fun a b => a ≤ b)

/-- `ScoringMonitor._percentile`: nearest-rank with index
`int(len * p / 100)` clamped above by `len - 1` (for nonnegative `p` the
Python truncation is the floor, which is Nat division here). -/
def percentile (data : List ℚ) (p : Nat) : ℚ :=
  if data = [] then 0
  else
    let sorted_data := pySorted data
    let idx := sorted_data.length * p / 100
    sorted_data.getD (min idx (sorted_data.length - 1)) 0

/-- The `p95_response_time` entry of
`generate_weekly_summary().performance_metrics`: the 95th percentile of the
processing times of the events of the reporting window (0 when there are
none). -/
def weeklyP95ResponseTime (events : List ScoringEvent) : ℚ :=
  let processing_times := events.map (fun e => e.processing_time)
  if processing_times = [] then 0 else percentile processing_times 95

/-- The five score buckets of `_calculate_score_distribution`. -/
structure ScoreDistribution where
  poor : Nat
  fair : Nat
  good : Nat
  very_good : Nat
  excellent : Nat
  deriving DecidableEq

/-- One iteration of the bucketing loop of
`_calculate_score_distribution`. -/
def addScoreToDistribution (d : ScoreDistribution) (score : ℚ) :
    ScoreDistribution :=
  if score < 580 then { d with poor := d.poor + 1 }
  else if score < 670 then { d with fair := d.fair + 1 }
  else if score < 740 then { d with good := d.good + 1 }
  else if score < 800 then { d with very_good := d.very_good + 1 }
  else { d with excellent := d.excellent + 1 }

/-- `ScoringMonitor._calculate_score_distribution`: the empty list returns
the empty dict (modelled `none`), otherwise the five zero-initialised
buckets are filled by the loop. -/
def calculateScoreDistribution (scores : List ℚ) : Option ScoreDistribution :=
  if scores = [] then none
  else some (scores.foldl addScoreToDistribution ⟨0, 0, 0, 0, 0⟩)

/-- The scores carried by a list of events, in order. -/
def eventScores (es : List ScoringEvent) : List ℚ :=
  es.filterMap (fun e => e.credit_score)

/-- The processing times of a list of events, in order. -/
def eventTimes (es : List ScoringEvent) : List ℚ :=
  es.map (fun e => e.processing_time)

/-- The suffix of the last (up to) `w` entries of a list. -/
def lastWindow (w : Nat) (l : List α) : List α := l.drop (l.length - w)

theorem dequeAppend_suffix (w : Nat) (hw : 0 < w) (l : List α) (x : α) :
    dequeAppend w (lastWindow w l) x = lastWindow w (l ++ [x]) := by
  simp only [dequeAppend, lastWindow]
  rcases Nat.lt_or_ge l.length w with hlt | hge
  · have h₀ : l.length - w = 0 := by omega
    have hc : ¬ w < (l.drop (l.length - w) ++ [x]).length := by
      rw [List.length_append, List.length_drop]; simp; omega
    rw [if_neg hc]
    have h₁ : (l ++ [x]).length - w = 0 := by rw [List.length_append]; simp; omega
    rw [h₀, h₁]
    simp
  · have hlen : (l.drop (l.length - w)).length = w := by
      rw [List.length_drop]; omega
    have hc : w < (l.drop (l.length - w) ++ [x]).length := by
      rw [List.length_append, hlen]; simp
    rw [if_pos hc]
    have hd1 : (l.drop (l.length - w) ++ [x]).length - w = 1 := by
      rw [List.length_append, hlen]; simp
    rw [hd1]
    rw [List.drop_append_of_le_length (by rw [hlen]; omega : 1 ≤ (l.drop (l.length - w)).length)]
    rw [List.drop_drop]
    have h₂ : (l ++ [x]).length - w = l.length + 1 - w := by rw [List.length_append]; rfl
    rw [h₂]
    rw [List.drop_append_of_le_length (by omega : l.length + 1 - w ≤ l.length)]
    have h₃ : l.length - w + 1 = l.length + 1 - w := by omega
    rw [h₃]

/-- The fields of the state that sliding-window claims are about. -/
def windowsOf (s : MonitorState) : List ScoringEvent × List ℚ × List ℚ × Nat × Nat :=
  (s.recent_events, s.recent_scores, s.recent_response_times, s.window_size, s.alert_threshold)

theorem windowsOf_triggerAlert (s : MonitorState) (a : AnomalyAlert)
    (p : Bool) (now : ℚ) : windowsOf (triggerAlert s a p now) = windowsOf s := by
  simp only [triggerAlert, windowsOf]
  split <;> rfl

theorem windowsOf_triggerOpt (s : MonitorState) (a : Option AnomalyAlert)
    (p : Bool) (now : ℚ) : windowsOf (triggerOpt s a p now) = windowsOf s := by
  cases a <;> simp [triggerOpt, windowsOf_triggerAlert]

theorem windowsOf_foldl_trigger (l : List AnomalyAlert) (s : MonitorState)
    (p : Bool) (now : ℚ) :
    windowsOf (l.foldl (fun st al => triggerAlert st al p now) s) = windowsOf s := by
  induction l generalizing s with
  | nil => rfl
  | cons a t ih => rw [List.foldl_cons, ih, windowsOf_triggerAlert]

theorem windowsOf_detectAnomalies (s : MonitorState) (e : ScoringEvent)
    (now : ℚ) (p : Bool) : windowsOf (detectAnomalies s e now p).1 = windowsOf s := by
  unfold detectAnomalies
  split
  · rfl
  · split
    · rfl
    · dsimp only
      split
      · rw [windowsOf_triggerOpt, windowsOf_triggerOpt]
      · rw [windowsOf_foldl_trigger, windowsOf_triggerOpt, windowsOf_triggerOpt,
          windowsOf_triggerOpt, windowsOf_triggerOpt]

theorem detectAnomalies_recent_events (s : MonitorState) (e : ScoringEvent)
    (now : ℚ) (p : Bool) :
    (detectAnomalies s e now p).1.recent_events = s.recent_events :=
  congrArg Prod.fst (windowsOf_detectAnomalies s e now p)

theorem detectAnomalies_recent_scores (s : MonitorState) (e : ScoringEvent)
    (now : ℚ) (p : Bool) :
    (detectAnomalies s e now p).1.recent_scores = s.recent_scores :=
  congrArg (fun t => t.2.1) (windowsOf_detectAnomalies s e now p)

theorem detectAnomalies_recent_response_times (s : MonitorState)
    (e : ScoringEvent) (now : ℚ) (p : Bool) :
    (detectAnomalies s e now p).1.recent_response_times = s.recent_response_times :=
  congrArg (fun t => t.2.2.1) (windowsOf_detectAnomalies s e now p)

theorem detectAnomalies_window_size (s : MonitorState) (e : ScoringEvent)
    (now : ℚ) (p : Bool) :
    (detectAnomalies s e now p).1.window_size = s.window_size :=
  congrArg (fun t => t.2.2.2.1) (windowsOf_detectAnomalies s e now p)

theorem logScoringEvent_recent_events (s : MonitorState) (e : ScoringEvent)
    (now : ℚ) (p : Bool) :
    (logScoringEvent s e now p).1.recent_events =
      dequeAppend s.window_size s.recent_events e := by
  unfold logScoringEvent
  dsimp only
  rw [detectAnomalies_recent_events]
  rcases hc : e.credit_score with _ | c <;> dsimp only <;> split <;> rfl

theorem logScoringEvent_recent_scores (s : MonitorState) (e : ScoringEvent)
    (now : ℚ) (p : Bool) :
    (logScoringEvent s e now p).1.recent_scores =
      (match e.credit_score with
       | some c => dequeAppend s.window_size s.recent_scores c
       | none => s.recent_scores) := by
  unfold logScoringEvent
  dsimp only
  rw [detectAnomalies_recent_scores]
  rcases hc : e.credit_score with _ | c <;> dsimp only <;> split <;> rfl

theorem logScoringEvent_recent_response_times (s : MonitorState)
    (e : ScoringEvent) (now : ℚ) (p : Bool) :
    (logScoringEvent s e now p).1.recent_response_times =
      dequeAppend s.window_size s.recent_response_times e.processing_time := by
  unfold logScoringEvent
  dsimp only
  rw [detectAnomalies_recent_response_times]
  rcases hc : e.credit_score with _ | c <;> dsimp only <;> split <;> rfl

theorem logScoringEvent_window_size (s : MonitorState) (e : ScoringEvent)
    (now : ℚ) (p : Bool) :
    (logScoringEvent s e now p).1.window_size = s.window_size := by
  unfold logScoringEvent
  dsimp only
  rw [detectAnomalies_window_size]
  rcases hc : e.credit_score with _ | c <;> dsimp only <;> split <;> rfl

theorem eventScores_append (l₁ l₂ : List ScoringEvent) :
    eventScores (l₁ ++ l₂) = eventScores l₁ ++ eventScores l₂ :=
  List.filterMap_append l₁ l₂ _

theorem eventTimes_append (l₁ l₂ : List ScoringEvent) :
    eventTimes (l₁ ++ l₂) = eventTimes l₁ ++ eventTimes l₂ :=
  List.map_append _ l₁ l₂

theorem lastWindow_length_le (w : Nat) (l : List α) :
    (lastWindow w l).length ≤ w := by
  simp only [lastWindow, List.length_drop]
  omega

theorem runMonitor_windows (calls : List (ScoringEvent × ℚ × Bool))
    (s : MonitorState) (pre : List ScoringEvent) (hw : 0 < s.window_size)
    (he : s.recent_events = lastWindow s.window_size pre)
    (hs : s.recent_scores = lastWindow s.window_size (eventScores pre))
    (ht : s.recent_response_times = lastWindow s.window_size (eventTimes pre)) :
    (runMonitor s calls).window_size = s.window_size ∧
    (runMonitor s calls).recent_events
      = lastWindow s.window_size (pre ++ calls.map (fun c => c.1)) ∧
    (runMonitor s calls).recent_scores
      = lastWindow s.window_size (eventScores (pre ++ calls.map (fun c => c.1))) ∧
    (runMonitor s calls).recent_response_times
      = lastWindow s.window_size (eventTimes (pre ++ calls.map (fun c => c.1))) := by
  induction calls generalizing s pre with
  | nil =>
    have h1 : runMonitor s [] = s := rfl
    rw [h1]
    simp only [List.map_nil, List.append_nil]
    exact ⟨trivial, he, hs, ht⟩
  | cons c rest ih =>
    set s' := (logScoringEvent s c.1 c.2.1 c.2.2).1 with hsdef
    have hwsz : s'.window_size = s.window_size := logScoringEvent_window_size s c.1 c.2.1 c.2.2
    have hw' : 0 < s'.window_size := by rw [hwsz]; exact hw
    have he' : s'.recent_events = lastWindow s'.window_size (pre ++ [c.1]) := by
      rw [hwsz, hsdef, logScoringEvent_recent_events, he,
        dequeAppend_suffix s.window_size hw]
    have hs' : s'.recent_scores = lastWindow s'.window_size (eventScores (pre ++ [c.1])) := by
      rw [hwsz, hsdef, logScoringEvent_recent_scores, eventScores_append]
      rcases hc : c.1.credit_score with _ | v
      · dsimp only
        have : eventScores [c.1] = [] := by simp [eventScores, hc]
        rw [this, List.append_nil, hs]
      · dsimp only
        have : eventScores [c.1] = [v] := by simp [eventScores, hc]
        rw [this, hs, dequeAppend_suffix s.window_size hw]
    have ht' : s'.recent_response_times = lastWindow s'.window_size (eventTimes (pre ++ [c.1])) := by
      rw [hwsz, hsdef, logScoringEvent_recent_response_times, eventTimes_append]
      have : eventTimes [c.1] = [c.1.processing_time] := by simp [eventTimes]
      rw [this, ht, dequeAppend_suffix s.window_size hw]
    obtain ⟨ihw, ihe, ihs, iht⟩ := ih s' (pre ++ [c.1]) hw' he' hs' ht'
    have hrun : runMonitor s (c :: rest) = runMonitor s' rest := rfl
    rw [hrun]
    refine ⟨by rw [ihw, hwsz], ?_, ?_, ?_⟩
    · rw [ihe, hwsz, List.map_cons, List.append_assoc, List.singleton_append]
    · rw [ihs, hwsz, List.map_cons, List.append_assoc, List.singleton_append]
    · rw [iht, hwsz, List.map_cons, List.append_assoc, List.singleton_append]

/-- The default baseline dict substituted when no history exists. -/
def defaultBaseline : BaselineMetrics :=
  { avg_processing_time := 1/2
    std_processing_time := 1/5
    avg_score := 500
    std_score := 150
    requests_per_hour := 10
    last_updated := 0 }

/-- A baseline learned from a history of all-zero processing times
(mean 0 with sample deviation 0, as `_load_baseline_metrics` produces for
two or more identical zero latencies). -/
def zeroBaseline : BaselineMetrics :=
  { avg_processing_time := 0
    std_processing_time := 0
    avg_score := 500
    std_score := 150
    requests_per_hour := 10
    last_updated := 0 }

/-- An empty persisted store. -/
def emptyDb : Database := { events := [], alerts := [] }

/-- A concrete scoring event used for witnesses. -/
def mkEvent (t : ℚ) (score : Option ℚ) (pt : ℚ) (code : ℤ) : ScoringEvent :=
  { timestamp := t
    user_id := "u1"
    api_key := "k1"
    credit_score := score
    processing_time := pt
    ip_address := "198.51.100.7"
    user_agent := "agent"
    status_code := code
    error_message := none }

/-- Three concrete ingestion calls used for witnesses. -/
def demoCalls : List (ScoringEvent × ℚ × Bool) :=
  [(mkEvent 1 (some 650) 1 200, 1, true),
   (mkEvent 2 none 2 200, 2, true),
   (mkEvent 3 (some 700) 3 500, 3, false)]

/-- C2: for every sequence of ingestion calls, each of the three sliding
windows (events, scores, processing times) holds exactly the trailing
(at most) `window_size` entries of its input stream — so no window ever
exceeds the configured capacity, and once a window is at capacity each
append evicts exactly the oldest entry (strict FIFO). -/
theorem c2_sliding_windows_fifo (w t : Nat) (hw : 0 < w) (b : BaselineMetrics)
    (db : Database) (calls : List (ScoringEvent × ℚ × Bool)) :
    (runMonitor (initialState w t b db) calls).recent_events
        = lastWindow w (calls.map (fun c => c.1)) ∧
    (runMonitor (initialState w t b db) calls).recent_scores
        = lastWindow w (eventScores (calls.map (fun c => c.1))) ∧
    (runMonitor (initialState w t b db) calls).recent_response_times
        = lastWindow w (eventTimes (calls.map (fun c => c.1))) ∧
    (runMonitor (initialState w t b db) calls).recent_events.length ≤ w ∧
    (runMonitor (initialState w t b db) calls).recent_scores.length ≤ w ∧
    (runMonitor (initialState w t b db) calls).recent_response_times.length ≤ w := by
  have h := runMonitor_windows calls (initialState w t b db) [] hw
    (by simp [initialState, lastWindow])
    (by simp [initialState, lastWindow, eventScores])
    (by simp [initialState, lastWindow, eventTimes])
  obtain ⟨h0, h1, h2, h3⟩ := h
  simp only [List.nil_append] at h1 h2 h3
  have hinit : (initialState w t b db).window_size = w := rfl
  rw [hinit] at h1 h2 h3
  refine ⟨h1, h2, h3, ?_, ?_, ?_⟩
  · rw [h1]; exact lastWindow_length_le w _
  · rw [h2]; exact lastWindow_length_le w _
  · rw [h3]; exact lastWindow_length_le w _

/-- Witness for C2 at capacity 2 with three concrete ingestion calls. -/
theorem c2_sliding_windows_fifo_witness :
    0 < 2 ∧
    ((runMonitor (initialState 2 10 defaultBaseline emptyDb) demoCalls).recent_events
        = lastWindow 2 (demoCalls.map (fun c => c.1)) ∧
     (runMonitor (initialState 2 10 defaultBaseline emptyDb) demoCalls).recent_scores
        = lastWindow 2 (eventScores (demoCalls.map (fun c => c.1))) ∧
     (runMonitor (initialState 2 10 defaultBaseline emptyDb) demoCalls).recent_response_times
        = lastWindow 2 (eventTimes (demoCalls.map (fun c => c.1))) ∧
     (runMonitor (initialState 2 10 defaultBaseline emptyDb) demoCalls).recent_events.length ≤ 2 ∧
     (runMonitor (initialState 2 10 defaultBaseline emptyDb) demoCalls).recent_scores.length ≤ 2 ∧
     (runMonitor (initialState 2 10 defaultBaseline emptyDb) demoCalls).recent_response_times.length ≤ 2) :=
  ⟨by decide, c2_sliding_windows_fifo 2 10 (by decide) defaultBaseline emptyDb demoCalls⟩

/-- A successful scoring event with latency 1 second and no score. -/
def slowEvent (t : ℚ) : ScoringEvent := mkEvent t none 1 200

/-- The monitor just before the tenth ingestion, with a baseline learned
from a zero-latency history: nine events of latency 1 already sit in the
windows. -/
def c1State : MonitorState :=
  { window_size := 1000
    alert_threshold := 10
    recent_events := List.replicate 9 (slowEvent 0)
    recent_scores := []
    recent_response_times := List.replicate 9 1
    baseline_metrics := zeroBaseline
    alerts := []
    user_request_counts := []
    ip_request_counts := []
    db := emptyDb }

/-- The same pre-ingestion state but with the default baseline. -/
def c1StateDefault : MonitorState :=
  { c1State with baseline_metrics := defaultBaseline }

/-- C1: the ingestion entry point is claimed never to raise, yet when the
baseline average processing time is zero and the ten-sample latency window
has a positive mean, `log_scoring_event` lets the `ZeroDivisionError` from
the `spike_factor` computation escape to the caller (first conjunct);
a failing persistence write alone, by contrast, is caught as claimed
(second conjunct). -/
theorem c1_ingest_raises_on_zero_baseline :
    (logScoringEvent c1State (slowEvent 9) 9 true).2 = some PyError.zeroDivision ∧
    (logScoringEvent c1StateDefault (slowEvent 9) 9 false).2 = none := by
  constructor
  · norm_num [logScoringEvent, detectAnomalies, detectResponseTimeAnomalies,
      qmean, dequeAppend, c1State, slowEvent, mkEvent, zeroBaseline, emptyDb,
      List.replicate]
  · norm_num [logScoringEvent, detectAnomalies, detectResponseTimeAnomalies,
      detectScoreAnomalies, detectRequestPatternAnomalies, detectErrorRateAnomalies,
      detectRepeatRequestAnomalies, triggerOpt, triggerAlert, getCount, bumpCount,
      qmean, dequeAppend, c1StateDefault, c1State, slowEvent, mkEvent,
      defaultBaseline, emptyDb, List.replicate, List.filter_cons, List.filter_nil]

/-- Counterexample to C3 as stated: with a zero baseline average (and zero
deviation), a ten-sample window of mean 1 exceeds the threshold, yet no
response-time-spike alert fires — the detector raises `ZeroDivisionError`
instead. -/
theorem c3_counterexample_zero_baseline :
    zeroBaseline.avg_processing_time + 3 * zeroBaseline.std_processing_time
        < qmean (List.replicate 10 1) ∧
    detectResponseTimeAnomalies (List.replicate 10 1) zeroBaseline "k1" 0
        = Except.error PyError.zeroDivision := by
  constructor
  · norm_num [zeroBaseline, qmean, List.replicate]
  · norm_num [detectResponseTimeAnomalies, zeroBaseline, qmean, List.replicate]

/-- C3 (amended): given at least 10 samples and a nonzero baseline average
processing time, a response-time-spike alert fires if and only if the
window mean exceeds `baseline.avg + 3 * baseline.std`; when it fires its
severity is `high` and its metrics carry the spike factor
`avg / baseline.avg`; at or below the threshold no alert fires. -/
theorem c3_response_time_spike_iff (times : List ℚ) (b : BaselineMetrics)
    (key : String) (now : ℚ) (hlen : 10 ≤ times.length)
    (havg : b.avg_processing_time ≠ 0) :
    ((∃ a, detectResponseTimeAnomalies times b key now = .ok (some a)) ↔
        b.avg_processing_time + 3 * b.std_processing_time < qmean times) ∧
    (∀ a, detectResponseTimeAnomalies times b key now = .ok (some a) →
        a.severity = "high" ∧ a.alert_type = "response_time_spike" ∧
        ("spike_factor", MetricValue.num (qmean times / b.avg_processing_time))
          ∈ a.metrics) ∧
    (¬ b.avg_processing_time + 3 * b.std_processing_time < qmean times →
        detectResponseTimeAnomalies times b key now = .ok none) := by
  unfold detectResponseTimeAnomalies
  rw [if_neg (by omega : ¬ times.length < 10)]
  dsimp only
  by_cases hcond : b.avg_processing_time + 3 * b.std_processing_time < qmean times
  · rw [if_pos hcond, if_neg havg]
    refine ⟨⟨fun _ => hcond, fun _ => ⟨_, rfl⟩⟩, ?_, fun hn => absurd hcond hn⟩
    intro a ha
    injection ha with h
    injection h with h₂
    subst h₂
    exact ⟨rfl, rfl,
      List.mem_cons_of_mem _ (List.mem_cons_of_mem _ (List.mem_cons_self _ _))⟩
  · rw [if_neg hcond]
    refine ⟨⟨fun ⟨a, ha⟩ => ?_, fun h => absurd h hcond⟩, ?_, fun _ => rfl⟩
    · simp at ha
    · intro a ha
      simp at ha

/-- Witness for C3 (amended) with a window of ten 2-second latencies
against the default baseline. -/
theorem c3_response_time_spike_iff_witness :
    10 ≤ (List.replicate 10 (2 : ℚ)).length ∧
    defaultBaseline.avg_processing_time ≠ 0 ∧
    (((∃ a, detectResponseTimeAnomalies (List.replicate 10 (2 : ℚ)) defaultBaseline "k1" 0 = .ok (some a)) ↔
        defaultBaseline.avg_processing_time + 3 * defaultBaseline.std_processing_time
          < qmean (List.replicate 10 (2 : ℚ))) ∧
     (∀ a, detectResponseTimeAnomalies (List.replicate 10 (2 : ℚ)) defaultBaseline "k1" 0 = .ok (some a) →
        a.severity = "high" ∧ a.alert_type = "response_time_spike" ∧
        ("spike_factor", MetricValue.num (qmean (List.replicate 10 (2 : ℚ)) / defaultBaseline.avg_processing_time))
          ∈ a.metrics) ∧
     (¬ defaultBaseline.avg_processing_time + 3 * defaultBaseline.std_processing_time
          < qmean (List.replicate 10 (2 : ℚ)) →
        detectResponseTimeAnomalies (List.replicate 10 (2 : ℚ)) defaultBaseline "k1" 0 = .ok none)) :=
  ⟨by decide, by norm_num [defaultBaseline],
   c3_response_time_spike_iff (List.replicate 10 (2 : ℚ)) defaultBaseline "k1" 0
     (by decide) (by norm_num [defaultBaseline])⟩

/-- The events of the sliding window that fall in the trailing hour. -/
def trailingHourEvents (events : List ScoringEvent) (now : ℚ) : List ScoringEvent :=
  events.filter (fun e => now - 3600 < e.timestamp)

/-- The trailing-hour error rate: the fraction of trailing-hour events with
`status_code >= 400`. -/
def trailingHourErrorRate (events : List ScoringEvent) (now : ℚ) : ℚ :=
  (((trailingHourEvents events now).filter (fun e => 400 ≤ e.status_code)).length : ℚ) /
    ((trailingHourEvents events now).length : ℚ)

/-- C4: given at least 10 events in the trailing hour, the high-error-rate
alert fires with severity `high` exactly when the trailing-hour error rate
lies in (0.10, 0.30], with severity `critical` exactly when it exceeds
0.30, and does not fire at 0.10 or below. -/
theorem c4_error_rate_severity (events : List ScoringEvent) (now : ℚ)
    (hlen : 10 ≤ (trailingHourEvents events now).length) :
    (detectErrorRateAnomalies events now = none ↔
        trailingHourErrorRate events now ≤ 1/10) ∧
    ((∃ a, detectErrorRateAnomalies events now = some a ∧ a.severity = "high") ↔
        (1/10 < trailingHourErrorRate events now ∧
         trailingHourErrorRate events now ≤ 3/10)) ∧
    ((∃ a, detectErrorRateAnomalies events now = some a ∧ a.severity = "critical") ↔
        3/10 < trailingHourErrorRate events now) ∧
    (∀ a, detectErrorRateAnomalies events now = some a →
        a.alert_type = "high_error_rate") := by
  unfold trailingHourErrorRate trailingHourEvents at *
  unfold detectErrorRateAnomalies
  rw [if_neg (by omega :
    ¬ (events.filter (fun e => now - 3600 < e.timestamp)).length < 10)]
  dsimp only
  set r : ℚ :=
    (((events.filter (fun e => now - 3600 < e.timestamp)).filter
        (fun e => 400 ≤ e.status_code)).length : ℚ) /
      (((events.filter (fun e => now - 3600 < e.timestamp)).length : ℚ)) with hr
  by_cases h1 : 1/10 < r
  · rw [if_pos h1]
    by_cases h2 : 3/10 < r
    · rw [if_pos h2]
      refine ⟨iff_of_false (by simp) (not_le.mpr h1), ?_, ?_, ?_⟩
      · refine iff_of_false ?_ (fun h => absurd h2 (not_lt.mpr h.2))
        rintro ⟨a, ha, hs⟩
        injection ha with h
        subst h
        simp at hs
      · exact iff_of_true ⟨_, rfl, rfl⟩ h2
      · rintro a ha
        injection ha with h
        subst h
        rfl
    · rw [if_neg h2]
      refine ⟨iff_of_false (by simp) (not_le.mpr h1), ?_, ?_, ?_⟩
      · exact iff_of_true ⟨_, rfl, rfl⟩ ⟨h1, not_lt.mp h2⟩
      · refine iff_of_false ?_ h2
        rintro ⟨a, ha, hs⟩
        injection ha with h
        subst h
        simp at hs
      · rintro a ha
        injection ha with h
        subst h
        rfl
  · rw [if_neg h1]
    refine ⟨iff_of_true rfl (not_lt.mp h1), ?_, ?_, ?_⟩
    · refine iff_of_false ?_ (fun h => absurd h.1 h1)
      rintro ⟨a, ha, _⟩
      simp at ha
    · refine iff_of_false ?_ (fun h => absurd (lt_trans (by norm_num) h) h1)
      rintro ⟨a, ha, _⟩
      simp at ha
    · rintro a ha
      simp at ha

/-- Ten trailing-hour events of which exactly two are errors
(rate 0.2). -/
def c4Events : List ScoringEvent :=
  List.replicate 8 (mkEvent 500 none 1 200) ++ List.replicate 2 (mkEvent 500 none 1 500)

/-- Witness for C4: with 10 trailing-hour events and error rate 1/5 the
alert fires with severity `high`. -/
theorem c4_error_rate_severity_witness :
    10 ≤ (trailingHourEvents c4Events 1000).length ∧
    (∃ a, detectErrorRateAnomalies c4Events 1000 = some a ∧ a.severity = "high") :=
  ⟨by norm_num [trailingHourEvents, c4Events, mkEvent, List.replicate],
   ((c4_error_rate_severity c4Events 1000
        (by norm_num [trailingHourEvents, c4Events, mkEvent, List.replicate])).2.1).mpr
     (by norm_num [trailingHourErrorRate, trailingHourEvents, c4Events, mkEvent,
        List.replicate])⟩

/-- C5: given at least 20 samples in the score window, a
score-distribution-shift alert fires exactly when the deviation of the
window mean from the baseline exceeds `2 * std_score`; its severity is
`medium` exactly when the deviation lies in `(2 * std, 3 * std]` and `high`
exactly when it exceeds `3 * std`. -/
theorem c5_score_shift_severity (scores : List ℚ) (b : BaselineMetrics)
    (now : ℚ) (hlen : 20 ≤ scores.length) :
    (detectScoreAnomalies scores b now = none ↔
        |qmean scores - b.avg_score| ≤ 2 * b.std_score) ∧
    ((∃ a, detectScoreAnomalies scores b now = some a ∧ a.severity = "medium") ↔
        (2 * b.std_score < |qmean scores - b.avg_score| ∧
         |qmean scores - b.avg_score| ≤ 3 * b.std_score)) ∧
    ((∃ a, detectScoreAnomalies scores b now = some a ∧ a.severity = "high") ↔
        3 * b.std_score < |qmean scores - b.avg_score|) ∧
    (∀ a, detectScoreAnomalies scores b now = some a →
        a.alert_type = "score_distribution_shift") := by
  unfold detectScoreAnomalies
  rw [if_neg (by omega : ¬ scores.length < 20)]
  dsimp only
  by_cases h1 : 2 * b.std_score < |qmean scores - b.avg_score|
  · rw [if_pos h1]
    by_cases h2 : 3 * b.std_score < |qmean scores - b.avg_score|
    · rw [if_pos h2]
      refine ⟨iff_of_false (by simp) (not_le.mpr h1), ?_, ?_, ?_⟩
      · refine iff_of_false ?_ (fun h => absurd h2 (not_lt.mpr h.2))
        rintro ⟨a, ha, hs⟩
        injection ha with h
        subst h
        simp at hs
      · exact iff_of_true ⟨_, rfl, rfl⟩ h2
      · rintro a ha
        injection ha with h
        subst h
        rfl
    · rw [if_neg h2]
      refine ⟨iff_of_false (by simp) (not_le.mpr h1), ?_, ?_, ?_⟩
      · exact iff_of_true ⟨_, rfl, rfl⟩ ⟨h1, not_lt.mp h2⟩
      · refine iff_of_false ?_ h2
        rintro ⟨a, ha, hs⟩
        injection ha with h
        subst h
        simp at hs
      · rintro a ha
        injection ha with h
        subst h
        rfl
  · rw [if_neg h1]
    refine ⟨iff_of_true rfl (not_lt.mp h1), ?_, ?_, ?_⟩
    · refine iff_of_false ?_ (fun h => absurd h.1 h1)
      rintro ⟨a, ha, _⟩
      simp at ha
    · refine iff_of_false ?_ ?_
      · rintro ⟨a, ha, _⟩
        simp at ha
      · intro h2
        refine absurd (lt_of_le_of_lt ?_ h2) h1
        rcases abs_nonneg (qmean scores - b.avg_score) with h3
        nlinarith [abs_nonneg (qmean scores - b.avg_score)]
    · rintro a ha
      simp at ha

/-- Twenty identical scores of 900. -/
def c5Scores : List ℚ := List.replicate 20 900

/-- Witness for C5: twenty scores of 900 against the default baseline
(avg 500, std 150) give deviation 400 in `(300, 450]`, so the alert fires
with severity `medium`. -/
theorem c5_score_shift_severity_witness :
    20 ≤ c5Scores.length ∧
    (∃ a, detectScoreAnomalies c5Scores defaultBaseline 0 = some a ∧
        a.severity = "medium") :=
  ⟨by decide,
   ((c5_score_shift_severity c5Scores defaultBaseline 0 (by decide)).2.1).mpr
     (by norm_num [qmean, c5Scores, defaultBaseline, List.replicate, abs])⟩

/-- A single history row carrying one score. -/
def c6Row : BaselineRow :=
  { processing_time := 1/2, credit_score := some 700, timestamp := 0 }

/-- A history row with no parsable score. -/
def c6RowNoScore : BaselineRow :=
  { processing_time := 3/4, credit_score := none, timestamp := 1 }

/-- Counterexample to C6 as stated: on a non-empty history whose score
series has fewer than 2 points, the recomputed `std_score` is 100, not 0. -/
theorem c6_counterexample_std_score_default :
    (loadBaselineMetrics [c6Row] 0).std_score = 100 ∧
    (loadBaselineMetrics [c6Row] 0).std_score ≠ 0 := by
  constructor
  · norm_num [loadBaselineMetrics, c6Row, List.filterMap_cons, List.filterMap_nil]
  · norm_num [loadBaselineMetrics, c6Row, List.filterMap_cons, List.filterMap_nil]

/-- C6 (amended): for every non-empty event history, baseline recomputation
sets `std_processing_time` to the sample standard deviation of the latency
series when it has at least 2 points (`1 < length`) and to 0 otherwise,
and sets `std_score` to the sample standard deviation of the score series
(over only the events carrying a numeric score) when that series has at
least 2 points, and to 100 (not 0) otherwise. -/
theorem c6_baseline_stdev (rows : List BaselineRow) (now : ℝ)
    (h : rows ≠ []) :
    (loadBaselineMetrics rows now).std_processing_time =
      (if 1 < (rows.map (fun r => r.processing_time)).length then
        statStdev (rows.map (fun r => r.processing_time)) else 0) ∧
    (loadBaselineMetrics rows now).std_score =
      (if 1 < (rows.filterMap (fun r => r.credit_score)).length then
        statStdev (rows.filterMap (fun r => r.credit_score)) else 100) := by
  unfold loadBaselineMetrics
  rw [if_neg (by simpa using h)]
  exact ⟨rfl, rfl⟩

/-- Witness for C6 (amended) on a two-row history with one score-carrying
row: the latency series has 2 points, the score series only 1. -/
theorem c6_baseline_stdev_witness :
    [c6Row, c6RowNoScore] ≠ [] ∧
    ((loadBaselineMetrics [c6Row, c6RowNoScore] 0).std_processing_time =
      (if 1 < ([c6Row, c6RowNoScore].map (fun r => r.processing_time)).length then
        statStdev ([c6Row, c6RowNoScore].map (fun r => r.processing_time)) else 0) ∧
     (loadBaselineMetrics [c6Row, c6RowNoScore] 0).std_score =
      (if 1 < ([c6Row, c6RowNoScore].filterMap (fun r => r.credit_score)).length then
        statStdev ([c6Row, c6RowNoScore].filterMap (fun r => r.credit_score)) else 100)) :=
  ⟨by simp, c6_baseline_stdev [c6Row, c6RowNoScore] 0 (by simp)⟩

/-- A learned baseline whose deviations are exactly zero (constant history),
with nonzero averages. -/
def unitZeroStdBaseline : BaselineMetrics :=
  { avg_processing_time := 1
    std_processing_time := 0
    avg_score := 500
    std_score := 0
    requests_per_hour := 10
    last_updated := 0 }

theorem qmean_replicate (n : Nat) (hn : n ≠ 0) (x : ℚ) :
    qmean (List.replicate n x) = x := by
  have hq : (n : ℚ) ≠ 0 := Nat.cast_ne_zero.mpr hn
  simp only [qmean, List.sum_replicate, nsmul_eq_mul, List.length_replicate]
  field_simp

/-- C7: no detector floors a zero standard deviation — with
`std_processing_time = 0` the response-time detector compares the window
mean against the bare baseline average and fires on every positive
deviation, however small, and with `std_score = 0` the score detector
fires at maximal severity on every positive deviation. -/
theorem c7_no_stddev_floor (δ : ℚ) (hδ : 0 < δ) :
    (∃ a, detectResponseTimeAnomalies (List.replicate 10 (1 + δ))
        unitZeroStdBaseline "k1" 0 = .ok (some a)) ∧
    (∃ a, detectScoreAnomalies (List.replicate 20 (500 + δ))
        unitZeroStdBaseline 0 = some a ∧ a.severity = "high") := by
  have hm1 : qmean (List.replicate 10 (1 + δ)) = 1 + δ :=
    qmean_replicate 10 (by norm_num) _
  have hm2 : qmean (List.replicate 20 (500 + δ)) = 500 + δ :=
    qmean_replicate 20 (by norm_num) _
  constructor
  · unfold detectResponseTimeAnomalies
    rw [if_neg (by simp : ¬ (List.replicate 10 (1 + δ)).length < 10)]
    dsimp only
    rw [hm1]
    rw [if_pos (show unitZeroStdBaseline.avg_processing_time +
        3 * unitZeroStdBaseline.std_processing_time < 1 + δ by
      simp only [unitZeroStdBaseline]; linarith)]
    rw [if_neg (show ¬ unitZeroStdBaseline.avg_processing_time = 0 by
      simp [unitZeroStdBaseline])]
    exact ⟨_, rfl⟩
  · unfold detectScoreAnomalies
    rw [if_neg (by simp : ¬ (List.replicate 20 (500 + δ)).length < 20)]
    dsimp only
    rw [hm2]
    have hdev : |500 + δ - unitZeroStdBaseline.avg_score| = δ := by
      simp only [unitZeroStdBaseline]
      rw [show (500 : ℚ) + δ - 500 = δ by ring, abs_of_pos hδ]
    rw [hdev]
    rw [if_pos (show 2 * unitZeroStdBaseline.std_score < δ by
      simp only [unitZeroStdBaseline]; linarith)]
    rw [if_pos (show 3 * unitZeroStdBaseline.std_score < δ by
      simp only [unitZeroStdBaseline]; linarith)]
    exact ⟨_, rfl, rfl⟩

/-- Witness for C7 at deviation 1/1000. -/
theorem c7_no_stddev_floor_witness :
    0 < (1/1000 : ℚ) ∧
    ((∃ a, detectResponseTimeAnomalies (List.replicate 10 (1 + (1/1000 : ℚ)))
        unitZeroStdBaseline "k1" 0 = .ok (some a)) ∧
     (∃ a, detectScoreAnomalies (List.replicate 20 (500 + (1/1000 : ℚ)))
        unitZeroStdBaseline 0 = some a ∧ a.severity = "high")) :=
  ⟨by norm_num, c7_no_stddev_floor (1/1000) (by norm_num)⟩

/-- A store holding one old event. -/
def c8Db : Database := { events := [mkEvent 0 none 1 200], alerts := [] }

/-- Counterexample to C8 as stated: `cleanup_old_data(days_to_keep = 0)`
on a store with one stale event does delete it, but returns `None` to the
caller instead of the claimed pair of deletion counts. -/
theorem c8_counterexample_no_return :
    (cleanupOldData c8Db 100 0).2 = none ∧
    (cleanupOldData c8Db 100 0).1.events = [] := by
  constructor
  · rfl
  · norm_num [cleanupOldData, c8Db, mkEvent, List.filter_cons, List.filter_nil]

/-- C8 (amended): cleanup deletes exactly the persisted events and alerts
with `timestamp < now - daysToKeep * 24h` (with `daysToKeep = 0` everything
older than `now` is deleted, and a subsequent cleanup with
`daysToKeep = 9999` deletes nothing that survived), but it returns nothing
to the caller — the deletion counts are only logged. -/
theorem c8_cleanup_deletes_old (db : Database) (now d : ℚ) :
    ((cleanupOldData db now d).1.events =
       db.events.filter (fun e => ¬ e.timestamp < now - d * 24 * 3600)) ∧
    ((cleanupOldData db now d).1.alerts =
       db.alerts.filter (fun a => ¬ a.timestamp < now - d * 24 * 3600)) ∧
    (∀ e, e ∈ (cleanupOldData db now d).1.events ↔
       (e ∈ db.events ∧ ¬ e.timestamp < now - d * 24 * 3600)) ∧
    (∀ a, a ∈ (cleanupOldData db now d).1.alerts ↔
       (a ∈ db.alerts ∧ ¬ a.timestamp < now - d * 24 * 3600)) ∧
    (cleanupOldData (cleanupOldData db now 0).1 now 9999).1
       = (cleanupOldData db now 0).1 ∧
    (cleanupOldData db now d).2 = none := by
  refine ⟨rfl, rfl, ?_, ?_, ?_, rfl⟩
  · intro e
    simp [cleanupOldData, List.mem_filter]
  · intro a
    simp [cleanupOldData, List.mem_filter]
  · dsimp only [cleanupOldData]
    rw [Database.mk.injEq]
    constructor
    · apply List.filter_eq_self.mpr
      intro x hx
      rw [List.mem_filter] at hx
      rcases hx with ⟨_, hts⟩
      rw [decide_eq_true_eq] at hts
      rw [decide_eq_true_eq]
      intro hlt
      exact hts (by linarith)
    · apply List.filter_eq_self.mpr
      intro x hx
      rw [List.mem_filter] at hx
      rcases hx with ⟨_, hts⟩
      rw [decide_eq_true_eq] at hts
      rw [decide_eq_true_eq]
      intro hlt
      exact hts (by linarith)

/-- Ten events whose processing times are the literal latency list
0.1 .. 1.0. -/
def c9Events : List ScoringEvent :=
  [mkEvent 0 none 0.1 200, mkEvent 0 none 0.2 200, mkEvent 0 none 0.3 200,
   mkEvent 0 none 0.4 200, mkEvent 0 none 0.5 200, mkEvent 0 none 0.6 200,
   mkEvent 0 none 0.7 200, mkEvent 0 none 0.8 200, mkEvent 0 none 0.9 200,
   mkEvent 0 none 1.0 200]

/-- C9: the percentile computation is deterministic nearest-rank — it
returns the element of the ascending sort of the samples at index
`floor(N * p / 100)` clamped to `[0, N-1]` — and on the literal ten-sample
latency list the 95th percentile is 1.0, which is exactly the value the
weekly summary reports as `p95_response_time`. -/
theorem c9_percentile_nearest_rank :
    (∀ (data : List ℚ) (p : Nat), data ≠ [] →
      ∃ s : List ℚ, data.Perm s ∧ s.Sorted (· ≤ ·) ∧ s.length = data.length ∧
        percentile data p = s.getD (min (data.length * p / 100) (data.length - 1)) 0) ∧
    percentile [0.1, 0.2, 0.3, 0.4, 0.5, 0.6, 0.7, 0.8, 0.9, 1.0] 95 = 1.0 ∧
    weeklyP95ResponseTime c9Events = 1.0 := by
  refine ⟨?_, ?_, ?_⟩
  · intro data p hne
    have hperm : (pySorted data).Perm data := List.perm_insertionSort _ data
    refine ⟨pySorted data, hperm.symm, List.sorted_insertionSort _ data,
      hperm.length_eq, ?_⟩
    unfold percentile
    rw [if_neg hne]
    dsimp only
    rw [show (pySorted data).length = data.length from hperm.length_eq]
  · norm_num [percentile, pySorted, List.insertionSort, List.orderedInsert,
      List.cons_ne_nil]
  · norm_num [weeklyP95ResponseTime, c9Events, mkEvent, percentile, pySorted,
      List.insertionSort, List.orderedInsert, List.cons_ne_nil]

/-- Witness for C9 on the two-sample list `[3, 1]` at the 50th
percentile. -/
theorem c9_percentile_nearest_rank_witness :
    ([(3 : ℚ), 1] ≠ []) ∧
    (∃ s : List ℚ, [(3 : ℚ), 1].Perm s ∧ s.Sorted (· ≤ ·) ∧
      s.length = [(3 : ℚ), 1].length ∧
      percentile [(3 : ℚ), 1] 50
        = s.getD (min ([(3 : ℚ), 1].length * 50 / 100) ([(3 : ℚ), 1].length - 1)) 0) :=
  ⟨by simp, c9_percentile_nearest_rank.1 [(3 : ℚ), 1] 50 (by simp)⟩

theorem foldl_addScoreToDistribution (scores : List ℚ) (d : ScoreDistribution) :
    scores.foldl addScoreToDistribution d =
      { poor := d.poor + scores.countP (fun s => decide (s < 580))
        fair := d.fair + scores.countP (fun s => decide (580 ≤ s ∧ s < 670))
        good := d.good + scores.countP (fun s => decide (670 ≤ s ∧ s < 740))
        very_good := d.very_good + scores.countP (fun s => decide (740 ≤ s ∧ s < 800))
        excellent := d.excellent + scores.countP (fun s => decide (800 ≤ s)) } := by
  induction scores generalizing d with
  | nil => simp
  | cons x t ih =>
    rw [List.foldl_cons, ih]
    rcases lt_or_ge x 580 with h1 | h1
    · have e1 : decide (x < 580) = true := by simp [h1]
      have e2 : decide (580 ≤ x ∧ x < 670) = false := by
        simp only [decide_eq_false_iff_not]; rintro ⟨h, _⟩; linarith
      have e3 : decide (670 ≤ x ∧ x < 740) = false := by
        simp only [decide_eq_false_iff_not]; rintro ⟨h, _⟩; linarith
      have e4 : decide (740 ≤ x ∧ x < 800) = false := by
        simp only [decide_eq_false_iff_not]; rintro ⟨h, _⟩; linarith
      have e5 : decide (800 ≤ x) = false := by
        simp only [decide_eq_false_iff_not]; intro h; linarith
      simp only [addScoreToDistribution, if_pos h1, List.countP_cons,
        e1, e2, e3, e4, e5, if_true, if_false]
      rw [ScoreDistribution.mk.injEq]
      refine ⟨?_, ?_, ?_, ?_, ?_⟩ <;> first | omega | (simp; try omega)
    · rcases lt_or_ge x 670 with h2 | h2
      · have e1 : decide (x < 580) = false := by
          simp only [decide_eq_false_iff_not]; intro h; linarith
        have e2 : decide (580 ≤ x ∧ x < 670) = true := by
          simp only [decide_eq_true_eq]; exact ⟨h1, h2⟩
        have e3 : decide (670 ≤ x ∧ x < 740) = false := by
          simp only [decide_eq_false_iff_not]; rintro ⟨h, _⟩; linarith
        have e4 : decide (740 ≤ x ∧ x < 800) = false := by
          simp only [decide_eq_false_iff_not]; rintro ⟨h, _⟩; linarith
        have e5 : decide (800 ≤ x) = false := by
          simp only [decide_eq_false_iff_not]; intro h; linarith
        simp only [addScoreToDistribution, if_neg (not_lt.mpr h1), if_pos h2,
          List.countP_cons, e1, e2, e3, e4, e5, if_true, if_false]
        rw [ScoreDistribution.mk.injEq]
        refine ⟨?_, ?_, ?_, ?_, ?_⟩ <;> first | omega | (simp; try omega)
      · rcases lt_or_ge x 740 with h3 | h3
        · have e1 : decide (x < 580) = false := by
            simp only [decide_eq_false_iff_not]; intro h; linarith
          have e2 : decide (580 ≤ x ∧ x < 670) = false := by
            simp only [decide_eq_false_iff_not]; rintro ⟨_, h⟩; linarith
          have e3 : decide (670 ≤ x ∧ x < 740) = true := by
            simp only [decide_eq_true_eq]; exact ⟨h2, h3⟩
          have e4 : decide (740 ≤ x ∧ x < 800) = false := by
            simp only [decide_eq_false_iff_not]; rintro ⟨h, _⟩; linarith
          have e5 : decide (800 ≤ x) = false := by
            simp only [decide_eq_false_iff_not]; intro h; linarith
          simp only [addScoreToDistribution, if_neg (not_lt.mpr h1),
            if_neg (not_lt.mpr h2), if_pos h3,
            List.countP_cons, e1, e2, e3, e4, e5, if_true, if_false]
          rw [ScoreDistribution.mk.injEq]
          refine ⟨?_, ?_, ?_, ?_, ?_⟩ <;> first | omega | (simp; try omega)
        · rcases lt_or_ge x 800 with h4 | h4
          · have e1 : decide (x < 580) = false := by
              simp only [decide_eq_false_iff_not]; intro h; linarith
            have e2 : decide (580 ≤ x ∧ x < 670) = false := by
              simp only [decide_eq_false_iff_not]; rintro ⟨_, h⟩; linarith
            have e3 : decide (670 ≤ x ∧ x < 740) = false := by
              simp only [decide_eq_false_iff_not]; rintro ⟨_, h⟩; linarith
            have e4 : decide (740 ≤ x ∧ x < 800) = true := by
              simp only [decide_eq_true_eq]; exact ⟨h3, h4⟩
            have e5 : decide (800 ≤ x) = false := by
              simp only [decide_eq_false_iff_not]; intro h; linarith
            simp only [addScoreToDistribution, if_neg (not_lt.mpr h1),
              if_neg (not_lt.mpr h2), if_neg (not_lt.mpr h3), if_pos h4,
              List.countP_cons, e1, e2, e3, e4, e5, if_true, if_false]
            rw [ScoreDistribution.mk.injEq]
            refine ⟨?_, ?_, ?_, ?_, ?_⟩ <;> first | omega | (simp; try omega)
          · have e1 : decide (x < 580) = false := by
              simp only [decide_eq_false_iff_not]; intro h; linarith
            have e2 : decide (580 ≤ x ∧ x < 670) = false := by
              simp only [decide_eq_false_iff_not]; rintro ⟨_, h⟩; linarith
            have e3 : decide (670 ≤ x ∧ x < 740) = false := by
              simp only [decide_eq_false_iff_not]; rintro ⟨_, h⟩; linarith
            have e4 : decide (740 ≤ x ∧ x < 800) = false := by
              simp only [decide_eq_false_iff_not]; rintro ⟨_, h⟩; linarith
            have e5 : decide (800 ≤ x) = true := by
              simp only [decide_eq_true_eq]; exact h4
            simp only [addScoreToDistribution, if_neg (not_lt.mpr h1),
              if_neg (not_lt.mpr h2), if_neg (not_lt.mpr h3),
              if_neg (not_lt.mpr h4),
              List.countP_cons, e1, e2, e3, e4, e5, if_true, if_false]
            rw [ScoreDistribution.mk.injEq]
            refine ⟨?_, ?_, ?_, ?_, ?_⟩ <;> first | omega | (simp; try omega)

theorem distTotal_foldl (scores : List ℚ) (d : ScoreDistribution) :
    (scores.foldl addScoreToDistribution d).poor +
      (scores.foldl addScoreToDistribution d).fair +
      (scores.foldl addScoreToDistribution d).good +
      (scores.foldl addScoreToDistribution d).very_good +
      (scores.foldl addScoreToDistribution d).excellent =
    d.poor + d.fair + d.good + d.very_good + d.excellent + scores.length := by
  induction scores generalizing d with
  | nil => simp
  | cons x t ih =>
    rw [List.foldl_cons, ih]
    unfold addScoreToDistribution
    split_ifs <;> dsimp only <;> simp [List.length_cons] <;> omega

/-- C10: the score-distribution computation returns the empty map on an
empty score list (not five zeroed buckets), and on a non-empty list it
partitions the scores into the five buckets with boundaries 580, 670, 740
and 800 (lower bound inclusive, upper bound exclusive, last bucket
unbounded above), the counts summing to the number of scores. -/
theorem c10_score_distribution (scores : List ℚ) :
    calculateScoreDistribution [] = none ∧
    (scores ≠ [] → ∃ d, calculateScoreDistribution scores = some d ∧
      d.poor = scores.countP (fun s => decide (s < 580)) ∧
      d.fair = scores.countP (fun s => decide (580 ≤ s ∧ s < 670)) ∧
      d.good = scores.countP (fun s => decide (670 ≤ s ∧ s < 740)) ∧
      d.very_good = scores.countP (fun s => decide (740 ≤ s ∧ s < 800)) ∧
      d.excellent = scores.countP (fun s => decide (800 ≤ s)) ∧
      d.poor + d.fair + d.good + d.very_good + d.excellent = scores.length) := by
  refine ⟨rfl, fun h => ?_⟩
  refine ⟨scores.foldl addScoreToDistribution ⟨0, 0, 0, 0, 0⟩, ?_, ?_, ?_, ?_, ?_, ?_, ?_⟩
  · unfold calculateScoreDistribution
    rw [if_neg h]
  · simp [foldl_addScoreToDistribution]
  · simp [foldl_addScoreToDistribution]
  · simp [foldl_addScoreToDistribution]
  · simp [foldl_addScoreToDistribution]
  · simp [foldl_addScoreToDistribution]
  · have ht := distTotal_foldl scores ⟨0, 0, 0, 0, 0⟩
    simpa using ht

/-- Witness for C10 on the single score 600 (a `fair` score). -/
theorem c10_score_distribution_witness :
    ([(600 : ℚ)] ≠ []) ∧
    (∃ d, calculateScoreDistribution [(600 : ℚ)] = some d ∧
      d.poor = [(600 : ℚ)].countP (fun s => decide (s < 580)) ∧
      d.fair = [(600 : ℚ)].countP (fun s => decide (580 ≤ s ∧ s < 670)) ∧
      d.good = [(600 : ℚ)].countP (fun s => decide (670 ≤ s ∧ s < 740)) ∧
      d.very_good = [(600 : ℚ)].countP (fun s => decide (740 ≤ s ∧ s < 800)) ∧
      d.excellent = [(600 : ℚ)].countP (fun s => decide (800 ≤ s)) ∧
      d.poor + d.fair + d.good + d.very_good + d.excellent = [(600 : ℚ)].length) :=
  ⟨by simp, (c10_score_distribution [(600 : ℚ)]).2 (by simp)⟩
